import Mathlib

/-!
Verification of the storage-client abstraction layer of `vishwa-labs/fastapi-utils`.

The Python sources under `vishwa_labs_fastapi_utils/cloud/` are shallowly embedded
here: strings are `List Char`, the remote object store is an association list from
blob names to byte payloads, environment variables are an explicit record of
optional strings, and code that raises exceptions returns `Except` values.
Definitions follow the Python code of `utils.py`, `storage.py`, `az_blob.py`,
`gcs.py`, `az_blob_async.py` and `gcs_async.py` branch by branch.
-/

/-- Strings of the embedded program, represented as lists of characters. -/
abbrev Str := List Char

/-- Coerce a Lean string literal to the embedded string type. -/
def strL (s : String) : Str := s.data

/-- Byte payloads (`bytes` in Python), as lists of byte values. -/
abbrev ByteSeq := List Nat

/-- `s.lower()`. -/
def toLowerL (s : Str) : Str := s.map Char.toLower

/-- Python substring test `needle in s` (for nonempty `needle`;
for `needle = []` it agrees with Python on nonempty `s` as well). -/
def occursIn (needle : Str) : Str → Bool
  | [] => needle.isPrefixOf []
  | c :: rest => needle.isPrefixOf (c :: rest) || occursIn needle rest

/-- Python `s.endswith(suf)`. -/
def endsWithL (suf s : Str) : Bool := suf.isSuffixOf s

/-- Split at the first occurrence of `needle`: `some (before, after)` when
`needle` occurs in `s` (scanning left to right), `none` otherwise. -/
def breakFirst (needle : Str) : Str → Option (Str × Str)
  | [] => none
  | c :: rest =>
    if needle.isPrefixOf (c :: rest) then some ([], (c :: rest).drop needle.length)
    else
      match breakFirst needle rest with
      | some (a, b) => some (c :: a, b)
      | none => none

/-- Python `s.split(needle, 1)[-1]`: the part after the first occurrence of
`needle`, or `s` itself when `needle` does not occur. -/
def afterFirst (needle s : Str) : Str :=
  match breakFirst needle s with
  | some (_, b) => b
  | none => s

/-- Python `s.split(needle)[0]`: the part before the first occurrence of
`needle`, or `s` itself when `needle` does not occur. -/
def beforeFirst (needle s : Str) : Str :=
  match breakFirst needle s with
  | some (a, _) => a
  | none => s

theorem breakFirst_decomp (needle : Str) :
    ∀ (s a b : Str), breakFirst needle s = some (a, b) → a ++ needle ++ b = s := by
  intro s
  induction s with
  | nil => intro a b h; simp [breakFirst] at h
  | cons c rest ih =>
    intro a b h
    by_cases hp : needle.isPrefixOf (c :: rest)
    · simp [breakFirst, hp] at h
      obtain ⟨ha, hb⟩ := h
      subst ha
      obtain ⟨t, ht⟩ := List.isPrefixOf_iff_prefix.mp hp
      subst hb
      rw [← ht, List.drop_left]
      simpa using ht
    · simp only [breakFirst, if_neg hp] at h
      cases hbf : breakFirst needle rest with
      | none => rw [hbf] at h; simp at h
      | some ab =>
        obtain ⟨a', b'⟩ := ab
        rw [hbf] at h
        simp at h
        obtain ⟨ha, hb⟩ := h
        subst ha; subst hb
        have := ih a' b' hbf
        simp [← this]

/-- Fuel-driven worker for `afterLast`; each `breakFirst` hit strictly shortens
the string, so fuel `s.length` always suffices. -/
def afterLastF (needle : Str) : Nat → Str → Str
  | 0, s => s
  | fuel + 1, s =>
    match breakFirst needle s with
    | none => s
    | some (_, b) => afterLastF needle fuel b

/-- Python `s.split(needle)[-1]`: the part after the last occurrence of
`needle` (or `s` when it does not occur). -/
def afterLast (needle s : Str) : Str :=
  if needle = [] then s else afterLastF needle s.length s

/-- Fuel-driven worker for `removeAll` (fuel bounds the number of characters
scanned, so `s.length` always suffices). -/
def removeAllF (needle : Str) : Nat → Str → Str
  | _, [] => []
  | 0, s => s
  | fuel + 1, c :: rest =>
    if needle.isPrefixOf (c :: rest) then removeAllF needle fuel ((c :: rest).drop needle.length)
    else c :: removeAllF needle fuel rest

/-- Python `s.replace(needle, "")`: remove all (non-overlapping, left-to-right)
occurrences of `needle` from `s`. -/
def removeAll (needle s : Str) : Str :=
  if needle = [] then s else removeAllF needle s.length s

/-- Hex digit test, as accepted by percent-escapes. -/
def hexDigit (c : Char) : Bool :=
  c.isDigit || (('a' ≤ c) && (c ≤ 'f')) || (('A' ≤ c) && (c ≤ 'F'))

/-- Value of a hex digit. -/
def hexVal (c : Char) : Nat :=
  if c.isDigit then c.toNat - 48
  else if 'a' ≤ c then c.toNat - 87
  else c.toNat - 55

/-- `urllib.parse.unquote`, modelled byte-wise: each valid `%XX` escape becomes
the character with code `XX`; invalid escapes are kept verbatim.  (Python
additionally reassembles multi-byte UTF-8 escape runs into single characters;
the claims checked here only involve inputs without multi-byte escapes.) -/
def unquote : Str → Str
  | [] => []
  | '%' :: a :: b :: rest2 =>
    if hexDigit a && hexDigit b then Char.ofNat (16 * hexVal a + hexVal b) :: unquote rest2
    else '%' :: unquote (a :: b :: rest2)
  | c :: rest => c :: unquote rest

/-- Characters allowed in an URL scheme after the first (a letter). -/
def schemeChar (c : Char) : Bool := c.isAlphanum || c = '+' || c = '-' || c = '.'

/-- A valid URL scheme: nonempty, a letter first, then scheme characters. -/
def schemeOk (s : Str) : Bool :=
  match s with
  | [] => false
  | c :: _ => c.isAlpha && s.all schemeChar

/-- Drop a leading `scheme:` when the part before the first `:` is a valid
scheme (as `urlparse` does); otherwise return the string unchanged. -/
def afterScheme (s : Str) : Str :=
  let pre := s.takeWhile (fun c => c ≠ ':')
  match s.dropWhile (fun c => c ≠ ':') with
  | [] => s
  | _ :: rest => if schemeOk pre then rest else s

/-- Characters that continue a netloc (stop at `/`, `?`, `#`). -/
def nlChar (c : Char) : Bool := c ≠ '/' && c ≠ '?' && c ≠ '#'

/-- Characters that continue a path (stop at `?`, `#`). -/
def pChar (c : Char) : Bool := c ≠ '?' && c ≠ '#'

/-- The netloc/path decomposition performed by `urlparse`, before its bracket
validation: `(parsed.netloc, parsed.path)`. -/
def urlSplitRaw (s : Str) : Str × Str :=
  let rest := afterScheme s
  if (strL "//").isPrefixOf rest then
    let r := rest.drop 2
    (r.takeWhile nlChar, (r.dropWhile nlChar).takeWhile pChar)
  else
    ([], rest.takeWhile pChar)

/-- `urlsplit`'s IPv6-bracket validation: a netloc containing `[` without `]`
or `]` without `[` makes `urlparse` raise `ValueError("Invalid IPv6 URL")`. -/
def bracketMismatch (netloc : Str) : Bool :=
  (occursIn (strL "[") netloc && !occursIn (strL "]") netloc) ||
  (occursIn (strL "]") netloc && !occursIn (strL "[") netloc)

/-- Error taxonomy used across the embedded layer. -/
inductive StorageErr where
  | emptyUrl
  | invalidIpv6Url
  | configError
  | alreadyExists
  | notFound
  | unsupportedProvider
deriving DecidableEq

/-- `urlparse(s)` restricted to the two components the code uses, including
the `ValueError("Invalid IPv6 URL")` raised for a netloc with a mismatched
square bracket. -/
def urlSplit (s : Str) : Except StorageErr (Str × Str) :=
  if bracketMismatch (urlSplitRaw s).1 then .error .invalidIpv6Url
  else .ok (urlSplitRaw s)

/-- The dictionary returned by `parse_cloud_url` (`provider` is one of the
string literals `"azure"`, `"gcp"`, `"aws"`, `"unknown"`). -/
structure CloudUrlDescriptor where
  provider : Str
  storage_account_name : Option Str
  container : Option Str
  blob : Option Str
  clean_url : Str
deriving DecidableEq

/-- Python `path.split(sep, 1)` for a single-character separator, returned as
first part plus optional remainder. -/
def splitOnce (sep : Char) (s : Str) : Str × Option Str :=
  let a := s.takeWhile (fun c => c ≠ sep)
  match s.dropWhile (fun c => c ≠ sep) with
  | [] => (a, none)
  | _ :: rest => (a, some rest)

/-- The Azure account regex `^(?P<account>[^.]+)\.blob\.core\.windows\.net$`:
`some account` when `netloc` is a nonempty dot-free label followed by exactly
`.blob.core.windows.net`. -/
def azAccountOf (netloc : Str) : Option Str :=
  let a := netloc.takeWhile (fun c => c ≠ '.')
  if a ≠ [] ∧ netloc.dropWhile (fun c => c ≠ '.') = strL ".blob.core.windows.net" then some a
  else none

/-- The AWS bucket regex `^(?P<bucket>[^.]+)\.s3\.amazonaws\.com$`. -/
def awsAccountOf (netloc : Str) : Option Str :=
  let a := netloc.takeWhile (fun c => c ≠ '.')
  if a ≠ [] ∧ netloc.dropWhile (fun c => c ≠ '.') = strL ".s3.amazonaws.com" then some a
  else none

/-- The branch cascade of `parse_cloud_url` (`utils.py` lines 27-109), given
the raw `url`, its percent-decoded form and the `(netloc, path)` pair that
`urlparse` returned. -/
def classifyDescr (url decoded : Str) (np : Str × Str) : CloudUrlDescriptor :=
  let netloc := toLowerL np.1
  let path := np.2.dropWhile (fun c => c = '/')
  if occursIn (strL "blob.core.windows.net") netloc then
    let cb := splitOnce '/' path
    ⟨strL "azure", azAccountOf netloc, some cb.1, cb.2, decoded⟩
  else if occursIn (strL "storage.googleapis.com") netloc then
    let cb := splitOnce '/' path
    ⟨strL "gcp", some cb.1, none, cb.2, decoded⟩
  else if (strL "gs://").isPrefixOf url then
    let cb := splitOnce '/' (removeAll (strL "gs://") url)
    ⟨strL "gcp", some cb.1, none, cb.2, decoded⟩
  else if occursIn (strL "s3.amazonaws.com") netloc || endsWithL (strL ".s3.amazonaws.com") netloc then
    let bucket :=
      match awsAccountOf netloc with
      | some b => b
      | none => beforeFirst (strL ".s3") np.1
    ⟨strL "aws", some bucket, none, (if path = [] then none else some path), decoded⟩
  else if (strL "s3://").isPrefixOf url then
    let cb := splitOnce '/' (removeAll (strL "s3://") url)
    ⟨strL "aws", some cb.1, none, cb.2, decoded⟩
  else
    ⟨strL "unknown", none, none, (if path = [] then none else some path), decoded⟩

/-- The classification of a nonempty URL (`utils.py` lines 25-109): decode,
call `urlparse` (which may raise `Invalid IPv6 URL`), then run the branch
cascade. -/
def classify (url : Str) : Except StorageErr CloudUrlDescriptor :=
  let decoded := unquote url
  match urlSplit decoded with
  | .error e => .error e
  | .ok np => .ok (classifyDescr url decoded np)

/-- `parse_cloud_url`: raises `ValueError` on an empty input, otherwise
decodes, parses and classifies (propagating `urlparse`'s error). -/
def parse_cloud_url (url : Str) : Except StorageErr CloudUrlDescriptor :=
  if url = [] then .error .emptyUrl else classify url

instance {ε α : Type} [DecidableEq ε] [DecidableEq α] : DecidableEq (Except ε α) := by
  intro x y
  cases x <;> cases y
  case error.error a b =>
    exact if h : a = b then isTrue (by rw [h]) else isFalse (by simp [h])
  case ok.ok a b =>
    exact if h : a = b then isTrue (by rw [h]) else isFalse (by simp [h])
  case error.ok a b => exact isFalse (by simp)
  case ok.error a b => exact isFalse (by simp)

/-! ## Environment, store, and Python truthiness helpers -/

/-- The environment variables read by the storage layer (absent = unset). -/
structure Env where
  storageProvider : Option Str
  storageUrlMode : Option Str
  azureUrl : Option Str
  azureName : Option Str
  azureContainer : Option Str
  gcpBucket : Option Str
  gcpContainer : Option Str
deriving DecidableEq

/-- An environment with every variable unset. -/
def emptyEnv : Env := ⟨none, none, none, none, none, none, none⟩

/-- Python truthiness of an optional string (`None` and `""` are falsy). -/
def truthyOpt : Option Str → Bool
  | none => false
  | some s => ¬ s.isEmpty

/-- Python `a or b` on optional strings. -/
def pyOr (a b : Option Str) : Option Str := if truthyOpt a then a else b

/-- The remote object store, abstracted as an association list from blob names
(within the client's configured bucket/container) to byte payloads. -/
abbrev Store := List (Str × ByteSeq)

def lookupStore : Store → Str → Option ByteSeq
  | [], _ => none
  | (k, v) :: rest, n => if k = n then some v else lookupStore rest n

/-- Writing a blob (later bindings shadow earlier ones). -/
def putStore (store : Store) (k : Str) (v : ByteSeq) : Store := (k, v) :: store

theorem lookupStore_put (store : Store) (k : Str) (v : ByteSeq) :
    lookupStore (putStore store k v) k = some v := by
  simp [putStore, lookupStore]

/-- One vendor-SDK storage call, used to model which requests a client emits:
a `probe` is `blob.exists()`, a `put` is an unconditional upload, and a
`putIfAbsent` is an upload with `overwrite=False` handed to the service
(which rejects it server-side when the blob exists). -/
inductive StoreOp where
  | probe : Str → StoreOp
  | put : Str → ByteSeq → StoreOp
  | putIfAbsent : Str → ByteSeq → StoreOp
deriving DecidableEq

/-! ## `AzureBlobServiceClient` (`cloud/az_blob.py`) -/

/-- `storage_account_url.split("//")[1].split(".")[0]` under `try/except`:
`none` models the swallowed `IndexError` when `"//"` does not occur. -/
def extractAccountName (u : Str) : Option Str :=
  match breakFirst (strL "//") u with
  | none => none
  | some (_, rest) => some ((beforeFirst (strL "//") rest).takeWhile (fun c => c ≠ '.'))

/-- The state of a constructed Azure client: resolved account name and
container name (construction fails before producing a client otherwise). -/
structure AzureBlobServiceClient where
  accountName : Str
  containerName : Str
deriving DecidableEq

/-- `az_blob.py` lines 17-18 (`az_blob_async.py` lines 18-19): build the
account URL from the account name when only the name is given. -/
def azUrl0 (storage_account_url storage_account_name : Option Str) : Option Str :=
  if truthyOpt storage_account_name ∧ ¬ truthyOpt storage_account_url then
    some (strL "https://" ++ storage_account_name.getD [] ++ strL ".blob.core.windows.net")
  else storage_account_url

/-- `az_blob.py` line 21 (`az_blob_async.py` line 22): explicit URL, then
`AZURE_STORAGE_ACCOUNT_URL`. -/
def azUrlResolved (storage_account_url storage_account_name : Option Str) (env : Env) : Option Str :=
  pyOr (azUrl0 storage_account_url storage_account_name) env.azureUrl

/-- `az_blob.py` lines 22-29 (`az_blob_async.py` lines 23-30): explicit name,
then `AZURE_STORAGE_ACCOUNT_NAME`, then extraction from the URL. -/
def azNameResolved (storage_account_url storage_account_name : Option Str) (env : Env) : Option Str :=
  let n1 := pyOr storage_account_name env.azureName
  if ¬ truthyOpt n1 ∧ truthyOpt (azUrlResolved storage_account_url storage_account_name env) then
    extractAccountName ((azUrlResolved storage_account_url storage_account_name env).getD [])
  else n1

/-- `az_blob.py` line 39 (`az_blob_async.py` line 40): the container argument
unless it `is None`, else `AZURE_STORAGE_CONTAINER_NAME`. -/
def azContResolved (container_name : Option Str) (env : Env) : Option Str :=
  match container_name with
  | none => env.azureContainer
  | some s => some s

/-- `AzureBlobServiceClient.__init__` (`az_blob.py` lines 12-40).  The final
`get_container_client` call constructs an SDK `ContainerClient`, which raises
`ValueError("Please specify a container name.")` for a falsy container name
(azure-storage-blob contract); that SDK-side check is the last guard here. -/
def AzureBlobServiceClient.mk? (container_name storage_account_url storage_account_name : Option Str)
    (env : Env) : Except StorageErr AzureBlobServiceClient :=
  if ¬ truthyOpt (azUrlResolved storage_account_url storage_account_name env) then
    .error .configError
  else if ¬ truthyOpt (azNameResolved storage_account_url storage_account_name env) then
    .error .configError
  else if ¬ truthyOpt (azContResolved container_name env) then .error .configError
  else
    .ok ⟨(azNameResolved storage_account_url storage_account_name env).getD [],
      (azContResolved container_name env).getD []⟩

/-- `_format_url` (`az_blob.py` lines 76-78). -/
def AzureBlobServiceClient.formatUrl (c : AzureBlobServiceClient) (blobName : Str) : Str :=
  strL "https://" ++ c.accountName ++ strL ".blob.core.windows.net/" ++ c.containerName
    ++ '/' :: blobName

/-- `upload_bytes` (`az_blob.py` lines 158-164): a single `upload_blob`
call with the `overwrite` flag; the service rejects an existing destination
when `overwrite=False`.  Returns the store after the call plus the result. -/
def AzureBlobServiceClient.uploadBytes (c : AzureBlobServiceClient) (store : Store)
    (data : ByteSeq) (blobName : Str) (overwrite : Bool) : Store × Except StorageErr Str :=
  if ¬ overwrite ∧ (lookupStore store blobName).isSome then (store, .error .alreadyExists)
  else (putStore store blobName data, .ok (c.formatUrl blobName))

/-- The sequence of SDK calls `upload_bytes` emits: exactly one upload request,
never an existence probe (`az_blob.py` lines 158-164 contain no `exists()`). -/
def AzureBlobServiceClient.uploadBytesOps (c : AzureBlobServiceClient) (store : Store)
    (data : ByteSeq) (blobName : Str) (overwrite : Bool) : List StoreOp :=
  [if overwrite then .put blobName data else .putIfAbsent blobName data]

/-- `download_blob_to_bytes` via `_get_blob_client` (`az_blob.py` lines 67-71,
95-99): names starting with `"http"` go through `BlobClient.from_blob_url`;
the store models only the configured account/container namespace, so URLs
addressing anything else (or unparsable pseudo-URLs) resolve to no blob. -/
def AzureBlobServiceClient.downloadBlobToBytes (c : AzureBlobServiceClient) (store : Store)
    (blobNameOrUrl : Str) : Except StorageErr ByteSeq :=
  if (strL "http").isPrefixOf blobNameOrUrl then
    match urlSplit blobNameOrUrl with
    | .error e => .error e
    | .ok np =>
      let cb := splitOnce '/' (np.2.dropWhile (fun c => c = '/'))
      if np.1 = c.accountName ++ strL ".blob.core.windows.net" ∧ cb.1 = c.containerName then
        match cb.2 with
        | some bn =>
          (match lookupStore store bn with
           | some d => .ok d
           | none => .error .notFound)
        | none => .error .notFound
      else .error .notFound
  else
    match lookupStore store blobNameOrUrl with
    | some d => .ok d
    | none => .error .notFound

/-! ## `AzureBlobServiceClientAsync` (`cloud/az_blob_async.py`): the
constructor checks, URL formatting and upload/download logic are line-for-line
the same as the synchronous client. -/

structure AzureBlobServiceClientAsync where
  accountName : Str
  containerName : Str
deriving DecidableEq

/-- `AzureBlobServiceClientAsync.__init__` (`az_blob_async.py` lines 12-41):
the validation chain is line-for-line that of the synchronous client. -/
def AzureBlobServiceClientAsync.mk? (container_name storage_account_url storage_account_name : Option Str)
    (env : Env) : Except StorageErr AzureBlobServiceClientAsync :=
  if ¬ truthyOpt (azUrlResolved storage_account_url storage_account_name env) then
    .error .configError
  else if ¬ truthyOpt (azNameResolved storage_account_url storage_account_name env) then
    .error .configError
  else if ¬ truthyOpt (azContResolved container_name env) then .error .configError
  else
    .ok ⟨(azNameResolved storage_account_url storage_account_name env).getD [],
      (azContResolved container_name env).getD []⟩

/-- `upload_bytes` (`az_blob_async.py` lines 162-166). -/
def AzureBlobServiceClientAsync.uploadBytes (c : AzureBlobServiceClientAsync) (store : Store)
    (data : ByteSeq) (blobName : Str) (overwrite : Bool) : Store × Except StorageErr Str :=
  if ¬ overwrite ∧ (lookupStore store blobName).isSome then (store, .error .alreadyExists)
  else (putStore store blobName data,
    .ok (strL "https://" ++ c.accountName ++ strL ".blob.core.windows.net/" ++ c.containerName
      ++ '/' :: blobName))

/-- SDK calls of the async `upload_bytes`: again no existence probe. -/
def AzureBlobServiceClientAsync.uploadBytesOps (c : AzureBlobServiceClientAsync) (store : Store)
    (data : ByteSeq) (blobName : Str) (overwrite : Bool) : List StoreOp :=
  [if overwrite then .put blobName data else .putIfAbsent blobName data]

/-- `download_blob_to_bytes` (`az_blob_async.py` lines 73-77, 106-113). -/
def AzureBlobServiceClientAsync.downloadBlobToBytes (c : AzureBlobServiceClientAsync)
    (store : Store) (blobNameOrUrl : Str) : Except StorageErr ByteSeq :=
  if (strL "http").isPrefixOf blobNameOrUrl then
    match urlSplit blobNameOrUrl with
    | .error e => .error e
    | .ok np =>
      let cb := splitOnce '/' (np.2.dropWhile (fun c => c = '/'))
      if np.1 = c.accountName ++ strL ".blob.core.windows.net" ∧ cb.1 = c.containerName then
        match cb.2 with
        | some bn =>
          (match lookupStore store bn with
           | some d => .ok d
           | none => .error .notFound)
        | none => .error .notFound
      else .error .notFound
  else
    match lookupStore store blobNameOrUrl with
    | some d => .ok d
    | none => .error .notFound

/-! ## `GCPStorageClient` (`cloud/gcs.py`) -/

/-- The state of a constructed GCP client: bucket name, container path prefix
(already normalised to end in `/` when nonempty), and the URL mode flag. -/
structure GCPStorageClient where
  bucketName : Str
  pfx : Str
  httpsUrl : Bool
deriving DecidableEq

/-- `gcs.py` lines 32-35 (`gcs_async.py` lines 34-37): container prefix from
the argument or `GCP_STORAGE_CONTAINER_NAME` (default `""`), with a trailing
`/` appended when nonempty. -/
def gcpPrefixResolved (container_name : Option Str) (env : Env) : Str :=
  let p0 := if truthyOpt container_name then container_name.getD [] else env.gcpContainer.getD []
  if ¬ p0.isEmpty ∧ ¬ endsWithL (strL "/") p0 then p0 ++ strL "/" else p0

/-- `gcs.py` lines 38-39 (`gcs_async.py` lines 39-40): URL mode from the
`return_https_url` argument, else `STORAGE_URL_MODE` (default `https`). -/
def gcpHttpsResolved (return_https_url : Option Bool) (env : Env) : Bool :=
  return_https_url.getD (decide (toLowerL (env.storageUrlMode.getD (strL "https")) = strL "https"))

/-- `GCPStorageClient.__init__` (`gcs.py` lines 23-41): bucket from argument or
`GCP_STORAGE_BUCKET_NAME` (required), container prefix from argument or
`GCP_STORAGE_CONTAINER_NAME` (default `""`, a trailing `/` appended when
nonempty), URL mode from the `return_https_url` argument or `STORAGE_URL_MODE`
(default `https`). -/
def GCPStorageClient.mk? (storage_account_name container_name : Option Str)
    (return_https_url : Option Bool) (env : Env) : Except StorageErr GCPStorageClient :=
  if ¬ truthyOpt (pyOr storage_account_name env.gcpBucket) then .error .configError
  else
    .ok ⟨(pyOr storage_account_name env.gcpBucket).getD [],
      gcpPrefixResolved container_name env, gcpHttpsResolved return_https_url env⟩

/-- Is the blob argument a full GCS URL (`gcs.py` line 89's test)? -/
def urlLike (n : Str) : Bool :=
  occursIn (strL "storage.googleapis.com") n || (strL "gs://").isPrefixOf n

/-- `_resolve_blob_name` (`gcs.py` lines 93-103): full URLs are split on the
first `f"{bucket}/"` and the tail kept; bare names pass through unchanged. -/
def GCPStorageClient.resolveBlobName (c : GCPStorageClient) (n : Str) : Str :=
  if occursIn (strL "storage.googleapis.com") n then afterFirst (c.bucketName ++ strL "/") n
  else if (strL "gs://").isPrefixOf n then afterFirst (c.bucketName ++ strL "/") n
  else n

/-- `_prefixed_blob_name` (`gcs.py` lines 83-91): full URLs are resolved and
never prefixed; bare names get the container prefix prepended when set. -/
def GCPStorageClient.prefixedBlobName (c : GCPStorageClient) (n : Str) : Str :=
  if urlLike n then c.resolveBlobName n
  else if ¬ c.pfx.isEmpty then c.pfx ++ n else n

/-- `_format_url` (`gcs.py` lines 105-110). -/
def GCPStorageClient.formatUrl (c : GCPStorageClient) (blobName : Str)
    (alreadyPrefixedFlag : Bool) : Str :=
  let full := if alreadyPrefixedFlag then blobName else c.prefixedBlobName blobName
  if c.httpsUrl then strL "https://storage.googleapis.com/" ++ c.bucketName ++ '/' :: full
  else strL "gs://" ++ c.bucketName ++ '/' :: full

/-- `upload_bytes` (`gcs.py` lines 186-196): prefix the name, probe existence
when `overwrite=False` (raising `FileExistsError` on a hit), then upload. -/
def GCPStorageClient.uploadBytes (c : GCPStorageClient) (store : Store)
    (data : ByteSeq) (blobName : Str) (overwrite : Bool) : Store × Except StorageErr Str :=
  let bn := c.prefixedBlobName blobName
  if ¬ overwrite ∧ (lookupStore store bn).isSome then (store, .error .alreadyExists)
  else (putStore store bn data, .ok (c.formatUrl bn true))

/-- The SDK calls `upload_bytes` emits: with `overwrite=False` an `exists()`
probe always precedes any upload. -/
def GCPStorageClient.uploadBytesOps (c : GCPStorageClient) (store : Store)
    (data : ByteSeq) (blobName : Str) (overwrite : Bool) : List StoreOp :=
  let bn := c.prefixedBlobName blobName
  if overwrite then [.put bn data]
  else if (lookupStore store bn).isSome then [.probe bn]
  else [.probe bn, .put bn data]

/-- `download_blob_to_bytes` (`gcs.py` lines 136-141): resolve the name (a
bare name passes through without the container prefix) and fetch it. -/
def GCPStorageClient.downloadBlobToBytes (c : GCPStorageClient) (store : Store)
    (blobNameOrUrl : Str) : Except StorageErr ByteSeq :=
  match lookupStore store (c.resolveBlobName blobNameOrUrl) with
  | some d => .ok d
  | none => .error .notFound

/-- `str(Path(a) / b)` for the relative paths produced in `upload_folder`. -/
def pathJoin (a b : Str) : Str :=
  if a.isEmpty then b else if endsWithL (strL "/") a then a ++ b else a ++ '/' :: b

/-- The blob names `upload_folder` (`gcs.py` lines 210-223) stores a folder's
files under: the remote folder name is prefixed once in `upload_folder`
itself, and each per-file name is passed to `upload_file` (line 174), which
applies `_prefixed_blob_name` to it again. -/
def GCPStorageClient.uploadFolderBlobNames (c : GCPStorageClient) (remoteFolder : Str)
    (relPaths : List Str) : List Str :=
  let rfp := c.prefixedBlobName remoteFolder
  relPaths.map (fun rel => c.prefixedBlobName (pathJoin rfp rel))

/-! ## `GCPStorageClientAsync` (`cloud/gcs_async.py`): identical to the sync
client except that `_resolve_blob_name` (lines 83-88) uses `split(...)[-1]`
without a maxsplit, i.e. the part after the last bucket separator. -/

structure GCPStorageClientAsync where
  bucketName : Str
  pfx : Str
  httpsUrl : Bool
deriving DecidableEq

/-- `GCPStorageClientAsync.__init__` (`gcs_async.py` lines 24-42). -/
def GCPStorageClientAsync.mk? (storage_account_name container_name : Option Str)
    (return_https_url : Option Bool) (env : Env) : Except StorageErr GCPStorageClientAsync :=
  if ¬ truthyOpt (pyOr storage_account_name env.gcpBucket) then .error .configError
  else
    .ok ⟨(pyOr storage_account_name env.gcpBucket).getD [],
      gcpPrefixResolved container_name env, gcpHttpsResolved return_https_url env⟩

/-- `_resolve_blob_name` (`gcs_async.py` lines 83-88). -/
def GCPStorageClientAsync.resolveBlobName (c : GCPStorageClientAsync) (n : Str) : Str :=
  if occursIn (strL "storage.googleapis.com") n then afterLast (c.bucketName ++ strL "/") n
  else if (strL "gs://").isPrefixOf n then afterLast (c.bucketName ++ strL "/") n
  else n

/-- `_prefixed_blob_name` (`gcs_async.py` lines 73-81). -/
def GCPStorageClientAsync.prefixedBlobName (c : GCPStorageClientAsync) (n : Str) : Str :=
  if urlLike n then c.resolveBlobName n
  else if ¬ c.pfx.isEmpty then c.pfx ++ n else n

/-- `_format_url` (`gcs_async.py` lines 90-95). -/
def GCPStorageClientAsync.formatUrl (c : GCPStorageClientAsync) (blobName : Str)
    (alreadyPrefixedFlag : Bool) : Str :=
  let full := if alreadyPrefixedFlag then blobName else c.prefixedBlobName blobName
  if c.httpsUrl then strL "https://storage.googleapis.com/" ++ c.bucketName ++ '/' :: full
  else strL "gs://" ++ c.bucketName ++ '/' :: full

/-- `upload_bytes` (`gcs_async.py` lines 111-119). -/
def GCPStorageClientAsync.uploadBytes (c : GCPStorageClientAsync) (store : Store)
    (data : ByteSeq) (blobName : Str) (overwrite : Bool) : Store × Except StorageErr Str :=
  let bn := c.prefixedBlobName blobName
  if ¬ overwrite ∧ (lookupStore store bn).isSome then (store, .error .alreadyExists)
  else (putStore store bn data, .ok (c.formatUrl bn true))

/-- SDK calls of the async `upload_bytes`: probe before upload when
`overwrite=False`. -/
def GCPStorageClientAsync.uploadBytesOps (c : GCPStorageClientAsync) (store : Store)
    (data : ByteSeq) (blobName : Str) (overwrite : Bool) : List StoreOp :=
  let bn := c.prefixedBlobName blobName
  if overwrite then [.put bn data]
  else if (lookupStore store bn).isSome then [.probe bn]
  else [.probe bn, .put bn data]

/-- `download_blob_to_bytes` (`gcs_async.py` lines 168-171). -/
def GCPStorageClientAsync.downloadBlobToBytes (c : GCPStorageClientAsync) (store : Store)
    (blobNameOrUrl : Str) : Except StorageErr ByteSeq :=
  match lookupStore store (c.resolveBlobName blobNameOrUrl) with
  | some d => .ok d
  | none => .error .notFound

/-- `upload_folder` (`gcs_async.py` lines 131-144): prefixes the remote folder
name, then calls `upload_file` (line 102) per file, which prefixes again. -/
def GCPStorageClientAsync.uploadFolderBlobNames (c : GCPStorageClientAsync) (remoteFolder : Str)
    (relPaths : List Str) : List Str :=
  let rfp := c.prefixedBlobName remoteFolder
  relPaths.map (fun rel => c.prefixedBlobName (pathJoin rfp rel))

/-! ## The client factories (`cloud/storage.py`) -/

/-- Which constructor the synchronous factory dispatches to. -/
inductive SyncClientKind where
  | azure
  | gcp
deriving DecidableEq

/-- `get_storage_client` (`storage.py` lines 7-14): `.lower()` is applied only
to the environment value (the explicit argument is compared as given), and
everything outside `{"gcp", "gcs"}` falls through to the Azure constructor. -/
def get_storage_client (storage_provider : Option Str) (env : Env) : SyncClientKind :=
  let provider :=
    if truthyOpt storage_provider then storage_provider.getD []
    else toLowerL (env.storageProvider.getD (strL "azure"))
  if provider = strL "gcp" ∨ provider = strL "gcs" then .gcp else .azure

/-- Which constructor the asynchronous factory dispatches to. -/
inductive AsyncClientKind where
  | azure
  | gcp
deriving DecidableEq

/-- `get_storage_client_async` (`storage.py` lines 17-34): lowercases the
resolved provider, dispatches on `{"gcp","gcs"}` and `{"azure","az"}`, and
raises `ValueError("Unsupported storage provider: ...")` otherwise. -/
def get_storage_client_async (storage_provider : Option Str) (env : Env) :
    Except StorageErr AsyncClientKind :=
  let provider :=
    toLowerL ((pyOr storage_provider (some (env.storageProvider.getD (strL "azure")))).getD [])
  if provider = strL "gcp" ∨ provider = strL "gcs" then .ok .gcp
  else if provider = strL "azure" ∨ provider = strL "az" then .ok .azure
  else .error .unsupportedProvider

/-! ## Helper lemmas about the clients -/

theorem resolve_of_not_urlLike (c : GCPStorageClient) (n : Str) (h : urlLike n = false) :
    c.resolveBlobName n = n := by
  simp only [urlLike, Bool.or_eq_false_iff] at h
  simp [GCPStorageClient.resolveBlobName, h.1, h.2]

theorem resolve_async_of_not_urlLike (c : GCPStorageClientAsync) (n : Str) (h : urlLike n = false) :
    c.resolveBlobName n = n := by
  simp only [urlLike, Bool.or_eq_false_iff] at h
  simp [GCPStorageClientAsync.resolveBlobName, h.1, h.2]

theorem prefixed_eq_resolve_of_empty (c : GCPStorageClient) (n : Str) (h : c.pfx = []) :
    c.prefixedBlobName n = c.resolveBlobName n := by
  by_cases hu : urlLike n = true
  · simp [GCPStorageClient.prefixedBlobName, hu]
  · have hu' : urlLike n = false := by
      cases hx : urlLike n
      · rfl
      · exact absurd hx hu
    simp [GCPStorageClient.prefixedBlobName, hu', h, resolve_of_not_urlLike c n hu']

theorem prefixed_async_eq_resolve_of_empty (c : GCPStorageClientAsync) (n : Str) (h : c.pfx = []) :
    c.prefixedBlobName n = c.resolveBlobName n := by
  by_cases hu : urlLike n = true
  · simp [GCPStorageClientAsync.prefixedBlobName, hu]
  · have hu' : urlLike n = false := by
      cases hx : urlLike n
      · rfl
      · exact absurd hx hu
    simp [GCPStorageClientAsync.prefixedBlobName, hu', h, resolve_async_of_not_urlLike c n hu']

/-! ## Claim C1 -/

/-- Claim C1, counterexample: a GCP client constructed with the container
prefix `"pre"` stores `upload_bytes(data, "file.txt")` under
`"pre/file.txt"`, but `download_blob_to_bytes("file.txt")` resolves the bare
name without the prefix, so the round trip yields `NotFound` instead of the
uploaded bytes. -/
theorem claim1_roundtrip_cex :
    GCPStorageClient.mk? (some (strL "bkt")) (some (strL "pre")) none emptyEnv
      = .ok ⟨strL "bkt", strL "pre/", true⟩ ∧
    GCPStorageClient.downloadBlobToBytes ⟨strL "bkt", strL "pre/", true⟩
      (GCPStorageClient.uploadBytes ⟨strL "bkt", strL "pre/", true⟩ [] [104, 105]
        (strL "file.txt") true).1 (strL "file.txt") = .error .notFound := by
  decide

/-- Claim C1 (corrected): `upload_bytes` followed by `download_blob_to_bytes`
on the same name returns exactly the uploaded bytes for Azure clients (sync
and async) whenever the blob name does not begin with `"http"`, and for GCP
clients (sync and async) whenever the configured container prefix is empty;
with a nonempty GCP prefix the round trip fails (see the counterexample),
and an Azure blob name starting with `"http"` is treated as a URL. -/
theorem claim1_roundtrip :
    (∀ (c : AzureBlobServiceClient) (store : Store) (data : ByteSeq) (n : Str),
      (strL "http").isPrefixOf n = false →
      c.downloadBlobToBytes (c.uploadBytes store data n true).1 n = .ok data) ∧
    (∀ (c : AzureBlobServiceClientAsync) (store : Store) (data : ByteSeq) (n : Str),
      (strL "http").isPrefixOf n = false →
      c.downloadBlobToBytes (c.uploadBytes store data n true).1 n = .ok data) ∧
    (∀ (c : GCPStorageClient) (store : Store) (data : ByteSeq) (n : Str),
      c.pfx = [] →
      c.downloadBlobToBytes (c.uploadBytes store data n true).1 n = .ok data) ∧
    (∀ (c : GCPStorageClientAsync) (store : Store) (data : ByteSeq) (n : Str),
      c.pfx = [] →
      c.downloadBlobToBytes (c.uploadBytes store data n true).1 n = .ok data) := by
  refine ⟨?_, ?_, ?_, ?_⟩
  · intro c store data n hn
    simp [AzureBlobServiceClient.uploadBytes, AzureBlobServiceClient.downloadBlobToBytes, hn,
      lookupStore_put]
  · intro c store data n hn
    simp [AzureBlobServiceClientAsync.uploadBytes, AzureBlobServiceClientAsync.downloadBlobToBytes,
      hn, lookupStore_put]
  · intro c store data n hp
    simp [GCPStorageClient.uploadBytes, GCPStorageClient.downloadBlobToBytes,
      prefixed_eq_resolve_of_empty c n hp, lookupStore_put]
  · intro c store data n hp
    simp [GCPStorageClientAsync.uploadBytes, GCPStorageClientAsync.downloadBlobToBytes,
      prefixed_async_eq_resolve_of_empty c n hp, lookupStore_put]

/-- Witness for `claim1_roundtrip` at concrete clients, payloads and names. -/
theorem claim1_roundtrip_witness :
    AzureBlobServiceClient.downloadBlobToBytes ⟨strL "acct", strL "cont"⟩
      (AzureBlobServiceClient.uploadBytes ⟨strL "acct", strL "cont"⟩ [] [0, 255]
        (strL "a.bin") true).1 (strL "a.bin") = .ok [0, 255] ∧
    AzureBlobServiceClientAsync.downloadBlobToBytes ⟨strL "acct", strL "cont"⟩
      (AzureBlobServiceClientAsync.uploadBytes ⟨strL "acct", strL "cont"⟩ [] [] (strL "e") true).1
      (strL "e") = .ok [] ∧
    GCPStorageClient.downloadBlobToBytes ⟨strL "bkt", [], true⟩
      (GCPStorageClient.uploadBytes ⟨strL "bkt", [], true⟩ [] [7] (strL "k.txt") true).1
      (strL "k.txt") = .ok [7] ∧
    GCPStorageClientAsync.downloadBlobToBytes ⟨strL "bkt", [], false⟩
      (GCPStorageClientAsync.uploadBytes ⟨strL "bkt", [], false⟩ [] [9, 9] (strL "z") true).1
      (strL "z") = .ok [9, 9] := by
  refine ⟨?_, ?_, ?_, ?_⟩
  · exact claim1_roundtrip.1 ⟨strL "acct", strL "cont"⟩ [] [0, 255] (strL "a.bin") (by decide)
  · exact claim1_roundtrip.2.1 ⟨strL "acct", strL "cont"⟩ [] [] (strL "e") (by decide)
  · exact claim1_roundtrip.2.2.1 ⟨strL "bkt", [], true⟩ [] [7] (strL "k.txt") (by decide)
  · exact claim1_roundtrip.2.2.2 ⟨strL "bkt", [], false⟩ [] [9, 9] (strL "z") (by decide)

/-! ## Claim C2 -/

/-- Claim C2: evaluation at the failing input.  A GCP client (sync or async)
configured with container prefix `"pre"` and `upload_folder("model")`
containing a file `w.bin` stores it under `"pre/pre/model/w.bin"`: the
prefix is applied once by `upload_folder` and a second time by the
`upload_file` call it delegates to, not once as specified.  (The single-use
behaviour of `_prefixed_blob_name` on direct uploads and the URL bypass do
hold; the folder path is where the code deviates.) -/
theorem claim2_upload_folder_eval :
    GCPStorageClient.uploadFolderBlobNames ⟨strL "bkt", strL "pre/", true⟩ (strL "model")
      [strL "w.bin"] = [strL "pre/pre/model/w.bin"] ∧
    GCPStorageClientAsync.uploadFolderBlobNames ⟨strL "bkt", strL "pre/", true⟩ (strL "model")
      [strL "w.bin"] = [strL "pre/pre/model/w.bin"] ∧
    GCPStorageClient.uploadFolderBlobNames ⟨strL "bkt", strL "pre/", true⟩ (strL "model")
      [strL "w.bin"] ≠ [strL "pre/model/w.bin"] := by
  decide

/-! ## Claim C3 -/

/-- Claim C3, counterexample: the synchronous factory called with the unknown
provider `"aws"` does not fail — it falls through to the Azure constructor. -/
theorem claim3_factory_cex :
    get_storage_client (some (strL "aws")) emptyEnv = SyncClientKind.azure := by decide

/-- Claim C3 (corrected): only the asynchronous factory rejects unknown
providers — it raises exactly when the lowercased provider is outside
`{gcp, gcs, azure, az}` — while the synchronous factory never raises: any
explicit provider outside `{"gcp", "gcs"}` (compared case-sensitively,
since `.lower()` is applied only to the environment value) selects Azure. -/
theorem claim3_factory :
    (∀ (p : Str) (env : Env), p ≠ [] →
      (get_storage_client_async (some p) env = .error .unsupportedProvider ↔
        (toLowerL p ≠ strL "gcp" ∧ toLowerL p ≠ strL "gcs" ∧
         toLowerL p ≠ strL "azure" ∧ toLowerL p ≠ strL "az"))) ∧
    (∀ (p : Str) (env : Env), p ≠ [] → p ≠ strL "gcp" → p ≠ strL "gcs" →
      get_storage_client (some p) env = SyncClientKind.azure) := by
  constructor
  · intro p env hp
    have ht : truthyOpt (some p) = true := by
      simp [truthyOpt, List.isEmpty_iff, hp]
    simp only [get_storage_client_async, pyOr, ht, if_true, Option.getD_some]
    by_cases h1 : toLowerL p = strL "gcp" ∨ toLowerL p = strL "gcs"
    · simp [h1]
      rcases h1 with h | h <;> simp [h]
    · by_cases h2 : toLowerL p = strL "azure" ∨ toLowerL p = strL "az"
      · simp [h1, h2]
        rcases h2 with h | h <;> simp [h]
      · push_neg at h1 h2
        simp [h1, h2]
  · intro p env hp h1 h2
    have ht : truthyOpt (some p) = true := by
      simp [truthyOpt, List.isEmpty_iff, hp]
    simp [get_storage_client, ht, h1, h2]

/-- Witness for `claim3_factory`: the async factory rejects `"aws"`, accepts
`"GCP"` (lowercased), and the sync factory maps `"aws"` to Azure. -/
theorem claim3_factory_witness :
    (get_storage_client_async (some (strL "aws")) emptyEnv = .error .unsupportedProvider ↔
      (toLowerL (strL "aws") ≠ strL "gcp" ∧ toLowerL (strL "aws") ≠ strL "gcs" ∧
       toLowerL (strL "aws") ≠ strL "azure" ∧ toLowerL (strL "aws") ≠ strL "az")) ∧
    get_storage_client (some (strL "aws")) emptyEnv = SyncClientKind.azure := by
  constructor
  · exact claim3_factory.1 (strL "aws") emptyEnv (by decide)
  · exact claim3_factory.2 (strL "aws") emptyEnv (by decide) (by decide) (by decide)

/-! ## Claim C5 -/

/-- Claim C6: the two documented examples of `parse_cloud_url` evaluate to
exactly the claimed descriptors (Azure: provider/account/container/blob;
GCP `gs://` form: provider/bucket/blob with no container). -/
theorem claim6_examples :
    parse_cloud_url (strL "https://acct.blob.core.windows.net/mycontainer/dir/file.txt") =
      .ok ⟨strL "azure", some (strL "acct"), some (strL "mycontainer"), some (strL "dir/file.txt"),
        strL "https://acct.blob.core.windows.net/mycontainer/dir/file.txt"⟩ ∧
    parse_cloud_url (strL "gs://mybucket/path/obj.json") =
      .ok ⟨strL "gcp", some (strL "mybucket"), none, some (strL "path/obj.json"),
        strL "gs://mybucket/path/obj.json"⟩ := by decide

/-! ## Claim C4 -/

/-- Claim C4: for every provider client, when no container/bucket name is
resolvable at construction time the constructor fails and no client value is
produced.  For GCP (sync and async) the bucket must come from the argument or
`GCP_STORAGE_BUCKET_NAME`; for Azure (sync and async) the container must come
from the argument or `AZURE_STORAGE_CONTAINER_NAME` — a falsy container is
rejected by the SDK `ContainerClient` constructed on the last line of
`__init__`. -/
theorem claim4_construction :
    (∀ (cn su sn : Option Str) (env : Env),
      truthyOpt cn = false → truthyOpt env.azureContainer = false →
      ∃ e, AzureBlobServiceClient.mk? cn su sn env = .error e) ∧
    (∀ (cn su sn : Option Str) (env : Env),
      truthyOpt cn = false → truthyOpt env.azureContainer = false →
      ∃ e, AzureBlobServiceClientAsync.mk? cn su sn env = .error e) ∧
    (∀ (sa cn : Option Str) (ru : Option Bool) (env : Env),
      truthyOpt sa = false → truthyOpt env.gcpBucket = false →
      ∃ e, GCPStorageClient.mk? sa cn ru env = .error e) ∧
    (∀ (sa cn : Option Str) (ru : Option Bool) (env : Env),
      truthyOpt sa = false → truthyOpt env.gcpBucket = false →
      ∃ e, GCPStorageClientAsync.mk? sa cn ru env = .error e) := by
  refine ⟨?_, ?_, ?_, ?_⟩
  · intro cn su sn env h1 h2
    have hcont : truthyOpt (azContResolved cn env) = false := by
      cases cn with
      | none => simpa [azContResolved] using h2
      | some s => simpa [azContResolved] using h1
    by_cases hu : truthyOpt (azUrlResolved su sn env) = true
    · by_cases hn : truthyOpt (azNameResolved su sn env) = true
      · exact ⟨.configError, by simp [AzureBlobServiceClient.mk?, hu, hn, hcont]⟩
      · exact ⟨.configError, by simp [AzureBlobServiceClient.mk?, hu, hn]⟩
    · exact ⟨.configError, by simp [AzureBlobServiceClient.mk?, hu]⟩
  · intro cn su sn env h1 h2
    have hcont : truthyOpt (azContResolved cn env) = false := by
      cases cn with
      | none => simpa [azContResolved] using h2
      | some s => simpa [azContResolved] using h1
    by_cases hu : truthyOpt (azUrlResolved su sn env) = true
    · by_cases hn : truthyOpt (azNameResolved su sn env) = true
      · exact ⟨.configError, by simp [AzureBlobServiceClientAsync.mk?, hu, hn, hcont]⟩
      · exact ⟨.configError, by simp [AzureBlobServiceClientAsync.mk?, hu, hn]⟩
    · exact ⟨.configError, by simp [AzureBlobServiceClientAsync.mk?, hu]⟩
  · intro sa cn ru env h1 h2
    exact ⟨.configError, by simp [GCPStorageClient.mk?, pyOr, h1, h2]⟩
  · intro sa cn ru env h1 h2
    exact ⟨.configError, by simp [GCPStorageClientAsync.mk?, pyOr, h1, h2]⟩

/-- Witness for `claim4_construction`: with nothing set in the environment
and no explicit names, all four constructors fail. -/
theorem claim4_construction_witness :
    (∃ e, AzureBlobServiceClient.mk? none none (some (strL "acct")) emptyEnv = .error e) ∧
    (∃ e, AzureBlobServiceClientAsync.mk? none none (some (strL "acct")) emptyEnv = .error e) ∧
    (∃ e, GCPStorageClient.mk? none none none emptyEnv = .error e) ∧
    (∃ e, GCPStorageClientAsync.mk? none none none emptyEnv = .error e) := by
  refine ⟨?_, ?_, ?_, ?_⟩
  · exact claim4_construction.1 none none (some (strL "acct")) emptyEnv (by decide) (by decide)
  · exact claim4_construction.2.1 none none (some (strL "acct")) emptyEnv (by decide) (by decide)
  · exact claim4_construction.2.2.1 none none none emptyEnv (by decide) (by decide)
  · exact claim4_construction.2.2.2 none none none emptyEnv (by decide) (by decide)

/-! ## Claim C8 -/

/-- Does a storage operation probe for existence (`blob.exists()`)? -/
def isProbe : StoreOp → Bool
  | .probe _ => true
  | _ => false

/-- Claim C8, counterexample: the Azure `upload_bytes` with `overwrite=False`
against an existing destination emits no existence probe at all — the single
SDK call it makes is the conditional upload itself, so the existence check is
not "a probe before any upload is attempted". -/
theorem claim8_overwrite_cex :
    (lookupStore [(strL "f", [1])] (strL "f")).isSome = true ∧
    (AzureBlobServiceClient.uploadBytesOps ⟨strL "acct", strL "cont"⟩ [(strL "f", [1])] [2]
      (strL "f") false).all (fun op => !isProbe op) = true := by decide

/-- Claim C8 (corrected): with `overwrite=false` against an existing blob,
every upload fails with `AlreadyExists` and leaves the store unchanged; but
only the GCP clients check existence via a client-side probe before any
upload (the probe is the first SDK call), while the Azure clients emit no
probe — they delegate the conflict check to the service inside the single
conditional upload call. -/
theorem claim8_overwrite :
    (∀ (c : GCPStorageClient) (store : Store) (data : ByteSeq) (n : Str),
      (lookupStore store (c.prefixedBlobName n)).isSome = true →
      c.uploadBytes store data n false = (store, .error .alreadyExists)) ∧
    (∀ (c : GCPStorageClientAsync) (store : Store) (data : ByteSeq) (n : Str),
      (lookupStore store (c.prefixedBlobName n)).isSome = true →
      c.uploadBytes store data n false = (store, .error .alreadyExists)) ∧
    (∀ (c : AzureBlobServiceClient) (store : Store) (data : ByteSeq) (n : Str),
      (lookupStore store n).isSome = true →
      c.uploadBytes store data n false = (store, .error .alreadyExists)) ∧
    (∀ (c : AzureBlobServiceClientAsync) (store : Store) (data : ByteSeq) (n : Str),
      (lookupStore store n).isSome = true →
      c.uploadBytes store data n false = (store, .error .alreadyExists)) ∧
    (∀ (c : GCPStorageClient) (store : Store) (data : ByteSeq) (n : Str),
      (c.uploadBytesOps store data n false).head? = some (.probe (c.prefixedBlobName n))) ∧
    (∀ (c : GCPStorageClientAsync) (store : Store) (data : ByteSeq) (n : Str),
      (c.uploadBytesOps store data n false).head? = some (.probe (c.prefixedBlobName n))) ∧
    (∀ (c : AzureBlobServiceClient) (store : Store) (data : ByteSeq) (n : Str) (ow : Bool),
      (c.uploadBytesOps store data n ow).all (fun op => !isProbe op) = true) ∧
    (∀ (c : AzureBlobServiceClientAsync) (store : Store) (data : ByteSeq) (n : Str) (ow : Bool),
      (c.uploadBytesOps store data n ow).all (fun op => !isProbe op) = true) := by
  refine ⟨?_, ?_, ?_, ?_, ?_, ?_, ?_, ?_⟩
  · intro c store data n h
    simp [GCPStorageClient.uploadBytes, h]
  · intro c store data n h
    simp [GCPStorageClientAsync.uploadBytes, h]
  · intro c store data n h
    simp [AzureBlobServiceClient.uploadBytes, h]
  · intro c store data n h
    simp [AzureBlobServiceClientAsync.uploadBytes, h]
  · intro c store data n
    by_cases hs : (lookupStore store (c.prefixedBlobName n)).isSome = true <;>
      simp [GCPStorageClient.uploadBytesOps, hs]
  · intro c store data n
    by_cases hs : (lookupStore store (c.prefixedBlobName n)).isSome = true <;>
      simp [GCPStorageClientAsync.uploadBytesOps, hs]
  · intro c store data n ow
    cases ow <;> simp [AzureBlobServiceClient.uploadBytesOps, isProbe]
  · intro c store data n ow
    cases ow <;> simp [AzureBlobServiceClientAsync.uploadBytesOps, isProbe]

/-- Witness for `claim8_overwrite` at a concrete one-blob store. -/
theorem claim8_overwrite_witness :
    GCPStorageClient.uploadBytes ⟨strL "bkt", [], true⟩ [(strL "k", [1])] [2] (strL "k") false
      = ([(strL "k", [1])], .error .alreadyExists) ∧
    GCPStorageClientAsync.uploadBytes ⟨strL "bkt", [], true⟩ [(strL "k", [1])] [2] (strL "k") false
      = ([(strL "k", [1])], .error .alreadyExists) ∧
    AzureBlobServiceClient.uploadBytes ⟨strL "acct", strL "cont"⟩ [(strL "k", [1])] [2]
      (strL "k") false = ([(strL "k", [1])], .error .alreadyExists) ∧
    AzureBlobServiceClientAsync.uploadBytes ⟨strL "acct", strL "cont"⟩ [(strL "k", [1])] [2]
      (strL "k") false = ([(strL "k", [1])], .error .alreadyExists) := by
  refine ⟨?_, ?_, ?_, ?_⟩
  · exact claim8_overwrite.1 ⟨strL "bkt", [], true⟩ [(strL "k", [1])] [2] (strL "k") (by decide)
  · exact claim8_overwrite.2.1 ⟨strL "bkt", [], true⟩ [(strL "k", [1])] [2] (strL "k") (by decide)
  · exact claim8_overwrite.2.2.1 ⟨strL "acct", strL "cont"⟩ [(strL "k", [1])] [2] (strL "k")
      (by decide)
  · exact claim8_overwrite.2.2.2.1 ⟨strL "acct", strL "cont"⟩ [(strL "k", [1])] [2] (strL "k")
      (by decide)

/-! ## Claim C9 -/

/-- Claim C9: every successful `upload_bytes` returns exactly
`https://{account}.blob.core.windows.net/{container}/{blob}` for Azure, and
for GCP exactly `https://storage.googleapis.com/{bucket}/{blob}` when the
client's URL mode is https or `gs://{bucket}/{blob}` otherwise, where the GCP
blob is the final (prefixed) blob name; for clients constructed without an
explicit `return_https_url`, the mode is https exactly when
`STORAGE_URL_MODE` (default `"https"`, lowercased) equals `"https"`. -/
theorem claim9_url_formats :
    (∀ (c : AzureBlobServiceClient) (store : Store) (data : ByteSeq) (n : Str) (ow : Bool)
        (s' : Store) (u : Str),
      c.uploadBytes store data n ow = (s', .ok u) →
      u = strL "https://" ++ c.accountName ++ strL ".blob.core.windows.net/" ++ c.containerName
        ++ '/' :: n) ∧
    (∀ (c : GCPStorageClient) (store : Store) (data : ByteSeq) (n : Str) (ow : Bool)
        (s' : Store) (u : Str),
      c.uploadBytes store data n ow = (s', .ok u) →
      u = if c.httpsUrl then
            strL "https://storage.googleapis.com/" ++ c.bucketName ++ '/' :: c.prefixedBlobName n
          else strL "gs://" ++ c.bucketName ++ '/' :: c.prefixedBlobName n) ∧
    (∀ (sa cn : Option Str) (env : Env) (c : GCPStorageClient),
      GCPStorageClient.mk? sa cn none env = .ok c →
      (c.httpsUrl = true ↔ toLowerL (env.storageUrlMode.getD (strL "https")) = strL "https")) := by
  refine ⟨?_, ?_, ?_⟩
  · intro c store data n ow s' u h
    simp only [AzureBlobServiceClient.uploadBytes] at h
    split at h
    · simp at h
    · simp only [Prod.mk.injEq, Except.ok.injEq] at h
      exact h.2.symm.trans rfl
  · intro c store data n ow s' u h
    simp only [GCPStorageClient.uploadBytes] at h
    split at h
    · simp at h
    · simp only [Prod.mk.injEq, Except.ok.injEq] at h
      rw [← h.2]
      simp [GCPStorageClient.formatUrl]
  · intro sa cn env c h
    simp only [GCPStorageClient.mk?] at h
    split at h
    · simp at h
    · simp only [Except.ok.injEq] at h
      rw [← h]
      simp [gcpHttpsResolved]

/-- Witness for `claim9_url_formats` at concrete clients and uploads. -/
theorem claim9_url_formats_witness :
    (strL "https://acct.blob.core.windows.net/cont/k.txt" =
      strL "https://" ++ strL "acct" ++ strL ".blob.core.windows.net/" ++ strL "cont"
        ++ '/' :: strL "k.txt") ∧
    (strL "https://storage.googleapis.com/bkt/pre/k.txt" =
      if true then
        strL "https://storage.googleapis.com/" ++ strL "bkt"
          ++ '/' :: GCPStorageClient.prefixedBlobName ⟨strL "bkt", strL "pre/", true⟩ (strL "k.txt")
      else strL "gs://" ++ strL "bkt"
          ++ '/' :: GCPStorageClient.prefixedBlobName ⟨strL "bkt", strL "pre/", true⟩ (strL "k.txt")) ∧
    ((true : Bool) = true ↔ toLowerL (emptyEnv.storageUrlMode.getD (strL "https")) = strL "https") := by
  refine ⟨?_, ?_, ?_⟩
  · exact claim9_url_formats.1 ⟨strL "acct", strL "cont"⟩ [] [1] (strL "k.txt") true
      [(strL "k.txt", [1])] (strL "https://acct.blob.core.windows.net/cont/k.txt") (by decide)
  · exact claim9_url_formats.2.1 ⟨strL "bkt", strL "pre/", true⟩ [] [1] (strL "k.txt") true
      [(strL "pre/k.txt", [1])] (strL "https://storage.googleapis.com/bkt/pre/k.txt") (by decide)
  · exact claim9_url_formats.2.2 (some (strL "bkt")) none emptyEnv ⟨strL "bkt", [], true⟩ (by decide)

/-! ## Claim C10 -/

/-- Characters allowed in a path segment of a well-formed cloud URL (no
percent-escapes, query, fragment or scheme separators). -/
def segChar (c : Char) : Bool := (c ≠ '%') && (c ≠ '?') && (c ≠ '#') && (c ≠ ':')

/-- Characters allowed in a host label (account/bucket): segment characters
that are not `/`, `.`, or a square bracket (brackets in a netloc trigger
`urlparse`'s IPv6 validation). -/
def labelChar (c : Char) : Bool := segChar c && (c ≠ '/') && (c ≠ '.') && (c ≠ '[') && (c ≠ ']')

theorem label_p (c : Char) (h : labelChar c = true) : pChar c = true := by
  simp [labelChar, segChar] at h
  simp [pChar, h]

